import Mathlib

/-!
The output layer of pstate-frequency (`psfreq_output.c`) and the percent/kHz conversions.

The first part embeds `app/src/psfreq_output.c`.  Every call the C code makes to
`psfreq_log`, `psfreq_log_error` and `free` is recorded, in program order, in a trace of
`Event`s; a `psfreq_log` call is recorded with its format string and its arguments exactly
as they are passed.  Headers and the other translation units are not part of the embedded
file, so the macros and functions they provide are the fields of `Env`.

The second part models `computePercent` and `resolvePercent`, whose code is not in
`psfreq_output.c`, from their description in the specification.
-/

set_option autoImplicit false

namespace Psfreq

/-! ## Data model -/

/-- The fields of `psfreq_cpu_type` that `psfreq_output.c` reads.  `pst_turbo` is a `char`,
the other numeric fields are `int`; all are kept as integers. -/
structure psfreq_cpu_type where
  cpu_num : Int
  scaling_driver : String
  scaling_governor : String
  pst_turbo : Int
  scaling_min_freq : Int
  scaling_max_freq : Int

/-- The field of `psfreq_option_type` that `psfreq_output.c` reads. -/
structure psfreq_option_type where
  cpu_get_type : Int

/-- What `psfreq_output.c` takes from its headers and from the other translation units:
the four macros, the optional `VERSION` macro, the four colour strings (constant during one
call) and the three `psfreq_cpu_*` getters.  `psfreq_cpu_get_real_freqs` gives the
`char **` array as the list of its strings; the two percentage getters give the
`unsigned int` that initialises the parameter `percent`. -/
structure Env where
  CPU_GET_TYPE_CURRENT : Int
  CPU_GET_TYPE_REAL : Int
  OUTPUT_SUCCESS : Int
  OUTPUT_FAILURE : Int
  VERSION : Option String
  psfreq_color_green : String
  psfreq_color_blue : String
  psfreq_color_reset : String
  psfreq_color_cyan : String
  psfreq_cpu_get_real_freqs : psfreq_cpu_type → List String
  psfreq_cpu_get_scaling_min : psfreq_cpu_type → Nat
  psfreq_cpu_get_scaling_max : psfreq_cpu_type → Nat

/-- One variadic argument of a `psfreq_log` call, tagged with its C type. -/
inductive Arg where
  | str (s : String)
  | int (n : Int)
  | uint (n : Nat)
  deriving DecidableEq, Repr

/-- One observable action of the output layer. -/
inductive Event where
  | log (fmt : String) (args : List Arg)
  | log_error (name : String) (msg : String)
  | free_elem (i : Nat)
  | free_array
  deriving DecidableEq, Repr

/-- Ways the embedding can fail to produce a result: a read of `frequencies[i]` outside the
array (undefined behaviour in C), or the loop budget running out. -/
inductive Fault where
  | out_of_bounds
  | out_of_fuel
  deriving DecidableEq, Repr

deriving instance DecidableEq for Except

/-- Conversion of an `int` expression to the `unsigned char` return type. -/
def to_unsigned_char (x : Int) : Nat := (x % 256).toNat

/-! ## `psfreq_output.c` -/

/-- The format string of the per-core line of `psfreq_output_real`. -/
def real_fmt : String := "    %spstate::%sCPU[%s%d%s]%s   -> %s%sMHz%s"

/-- The `psfreq_log` call in the body of the loop of `psfreq_output_real`. -/
def real_line (e : Env) (i : Int) (freq : String) : Event :=
  Event.log real_fmt
    [Arg.str e.psfreq_color_green, Arg.str e.psfreq_color_blue,
     Arg.str e.psfreq_color_reset, Arg.int i, Arg.str e.psfreq_color_blue,
     Arg.str e.psfreq_color_reset, Arg.str e.psfreq_color_cyan,
     Arg.str freq, Arg.str e.psfreq_color_reset]

/-- The loop `for (i = 0; i < num; ++i) { psfreq_log(.., i, .., frequencies[i], ..);
free(frequencies[i]); }`, entered at `i` with the events so far in `tr`. -/
def psfreq_output_real_loop (e : Env) (frequencies : List String) (num : Int) :
    Nat → Int → List Event → Except Fault (List Event)
  | fuel, i, tr =>
    if i < num then
      match fuel with
      | 0 => Except.error Fault.out_of_fuel
      | fuel + 1 =>
        match frequencies.get? i.toNat with
        | none => Except.error Fault.out_of_bounds
        | some f =>
          psfreq_output_real_loop e frequencies num fuel (i + 1)
            (tr ++ [real_line e i f, Event.free_elem i.toNat])
    else Except.ok tr

/-- The C function `psfreq_output_real`; `none` is `CPU_UNDEFINED`. -/
def psfreq_output_real (e : Env) (cpu : Option psfreq_cpu_type) :
    Except Fault (List Event) :=
  match cpu with
  | none => Except.ok [Event.log_error "psfreq_output_real" "cpu is undefined"]
  | some c =>
    let num := c.cpu_num
    let frequencies := e.psfreq_cpu_get_real_freqs c
    match psfreq_output_real_loop e frequencies num num.toNat 0 [] with
    | Except.error f => Except.error f
    | Except.ok tr => Except.ok (tr ++ [Event.free_array])

/-- The C function `psfreq_output_current_out`. -/
def psfreq_output_current_out (e : Env) (what : String) (str : String) : Event :=
  Event.log "    %spstate::%s%s%s-> %s%s%s"
    [Arg.str e.psfreq_color_green, Arg.str e.psfreq_color_blue, Arg.str what,
     Arg.str e.psfreq_color_reset, Arg.str e.psfreq_color_cyan, Arg.str str,
     Arg.str e.psfreq_color_reset]

/-- The expression `(turbo == 1 ? "OFF" : "ON")`. -/
def turbo_label (turbo : Int) : String := if turbo = 1 then "OFF" else "ON"

/-- The C function `psfreq_output_current_turbo`. -/
def psfreq_output_current_turbo (e : Env) (what : String) (turbo : Int) : Event :=
  Event.log "    %spstate::%s%s%s-> %s%d [%s]%s"
    [Arg.str e.psfreq_color_green, Arg.str e.psfreq_color_blue, Arg.str what,
     Arg.str e.psfreq_color_reset, Arg.str e.psfreq_color_cyan, Arg.int turbo,
     Arg.str (turbo_label turbo), Arg.str e.psfreq_color_reset]

/-- The C function `psfreq_output_current_freq`; `percent` is `unsigned int`, `freq` is
`int`. -/
def psfreq_output_current_freq (e : Env) (what : String) (percent : Nat) (freq : Int) :
    Event :=
  Event.log "    %spstate::%s%s%s-> %s%d%% [%uKHz]%s"
    [Arg.str e.psfreq_color_green, Arg.str e.psfreq_color_blue, Arg.str what,
     Arg.str e.psfreq_color_reset, Arg.str e.psfreq_color_cyan, Arg.uint percent,
     Arg.int freq, Arg.str e.psfreq_color_reset]

/-- The C function `psfreq_output_current`. -/
def psfreq_output_current (e : Env) (cpu : psfreq_cpu_type) : List Event :=
  [psfreq_output_current_out e "CPU_DRIVER   " cpu.scaling_driver,
   psfreq_output_current_out e "CPU_GOVERNOR " cpu.scaling_governor,
   psfreq_output_current_turbo e "TURBO        " cpu.pst_turbo,
   psfreq_output_current_freq e "CPU_MIN      " (e.psfreq_cpu_get_scaling_min cpu)
     cpu.scaling_min_freq,
   psfreq_output_current_freq e "CPU_MAX      " (e.psfreq_cpu_get_scaling_max cpu)
     cpu.scaling_max_freq]

/-- The version banner of `psfreq_output_get_cpu`, in both branches of `#ifdef VERSION`. -/
def banner (e : Env) : Event :=
  match e.VERSION with
  | some v =>
    Event.log "%spstate-frequency %s%s"
      [Arg.str e.psfreq_color_blue, Arg.str v, Arg.str e.psfreq_color_reset]
  | none =>
    Event.log "%spstate-frequency %s"
      [Arg.str e.psfreq_color_blue, Arg.str e.psfreq_color_reset]

/-- The C function `psfreq_output_get_cpu`: the returned `unsigned char` and the trace.
`none` is `CPU_UNDEFINED`, respectively `OPT_UNDEFINED`. -/
def psfreq_output_get_cpu (e : Env) (cpu : Option psfreq_cpu_type)
    (options : Option psfreq_option_type) : Except Fault (Nat × List Event) :=
  match cpu with
  | none =>
    Except.ok (to_unsigned_char e.OUTPUT_FAILURE,
      [Event.log_error "psfreq_output_get_cpu" "cpu is undefined"])
  | some c =>
    match options with
    | none =>
      Except.ok (to_unsigned_char e.OUTPUT_FAILURE,
        [Event.log_error "psfreq_output_get_cpu" "options is undefined"])
    | some o =>
      let tr := [banner e]
      if o.cpu_get_type = e.CPU_GET_TYPE_CURRENT then
        Except.ok (to_unsigned_char e.OUTPUT_SUCCESS, tr ++ psfreq_output_current e c)
      else if o.cpu_get_type = e.CPU_GET_TYPE_REAL then
        match psfreq_output_real e (some c) with
        | Except.error f => Except.error f
        | Except.ok tr1 => Except.ok (to_unsigned_char e.OUTPUT_SUCCESS, tr ++ tr1)
      else
        Except.ok (to_unsigned_char e.OUTPUT_FAILURE, tr)

/-! ## Reading a trace -/

/-- Whether an event is a per-core frequency line. -/
def Event.is_real_line : Event → Bool
  | Event.log fmt _ => fmt == real_fmt
  | _ => false

/-- Whether an event is one of the lines of the current configuration. -/
def Event.is_config_line : Event → Bool
  | Event.log fmt _ =>
    fmt == "    %spstate::%s%s%s-> %s%s%s" || fmt == "    %spstate::%s%s%s-> %s%d [%s]%s"
      || fmt == "    %spstate::%s%s%s-> %s%d%% [%uKHz]%s"
  | _ => false

/-- The `psfreq_log` calls of a trace, in order. -/
def log_lines (tr : List Event) : List Event :=
  tr.filter fun ev => match ev with
    | Event.log _ _ => true
    | _ => false

/-- The events of `k` iterations of the loop of `psfreq_output_real` starting at index `i`. -/
def real_events (e : Env) (frequencies : List String) : Nat → Nat → List Event
  | _, 0 => []
  | i, k + 1 =>
    [real_line e (i : Int) (frequencies.getD i ""), Event.free_elem i]
      ++ real_events e frequencies (i + 1) k

/-- The state label of a TURBO line: the seventh variadic argument of its `psfreq_log`
call. -/
def turbo_shown (ev : Event) : Option String :=
  match ev with
  | Event.log _ args =>
    match args.get? 6 with
    | some (Arg.str s) => some s
    | _ => none
  | _ => none

/-- A small environment for concrete evaluations. -/
def env0 : Env where
  CPU_GET_TYPE_CURRENT := 1
  CPU_GET_TYPE_REAL := 2
  OUTPUT_SUCCESS := 1
  OUTPUT_FAILURE := 0
  VERSION := some "3.4.0"
  psfreq_color_green := ""
  psfreq_color_blue := ""
  psfreq_color_reset := ""
  psfreq_color_cyan := ""
  psfreq_cpu_get_real_freqs := fun c => (List.range c.cpu_num.toNat).map fun i => toString (800 + i)
  psfreq_cpu_get_scaling_min := fun _ => 22
  psfreq_cpu_get_scaling_max := fun _ => 100

/-- A small CPU for concrete evaluations. -/
def cpu0 : psfreq_cpu_type where
  cpu_num := 2
  scaling_driver := "intel_pstate"
  scaling_governor := "powersave"
  pst_turbo := 0
  scaling_min_freq := 800000
  scaling_max_freq := 3600000

/-! ## The percent/kHz conversions of the CPU model -/

/-- The failures named by the specification for the conversions below. -/
inductive ModelError where
  | InvalidRange
  | OutOfRange
  | InvalidBounds
  deriving DecidableEq, Repr

/-- Clamping of an integer to the interval [0,100]. -/
def clampPercent (x : Int) : Int := max 0 (min 100 x)

/-- Modelled from the spec: `computePercent`, whose code is not in `psfreq_output.c`:
`round(100 * (currentKHz - hardwareMinKHz) / (hardwareMaxKHz - hardwareMinKHz))`, clamped to
[0,100]; fails with `InvalidRange` if `hardwareMaxKHz ≤ hardwareMinKHz`.  The quotient is
taken in the rationals and `round` is rounding to the nearest integer. -/
def computePercent (currentKHz hardwareMinKHz hardwareMaxKHz : Int) :
    Except ModelError Int :=
  if hardwareMaxKHz ≤ hardwareMinKHz then Except.error ModelError.InvalidRange
  else
    Except.ok (clampPercent
      (round (100 * ((currentKHz : ℚ) - (hardwareMinKHz : ℚ))
        / ((hardwareMaxKHz : ℚ) - (hardwareMinKHz : ℚ)))))

/-- Modelled from the spec: `resolvePercent`, whose code is not in `psfreq_output.c`:
`hardwareMinKHz + round(percent/100 * (hardwareMaxKHz - hardwareMinKHz))`; fails with
`OutOfRange` if `percent` is outside [0,100]. -/
def resolvePercent (percent hardwareMinKHz hardwareMaxKHz : Int) :
    Except ModelError Int :=
  if percent < 0 ∨ 100 < percent then Except.error ModelError.OutOfRange
  else
    Except.ok (hardwareMinKHz
      + round ((percent : ℚ) / 100 * ((hardwareMaxKHz : ℚ) - (hardwareMinKHz : ℚ))))

/-- The two values a min/max request writes. -/
structure MinMaxWrite where
  scaling_min_freq : Int
  scaling_max_freq : Int
  deriving DecidableEq, Repr

/-- Modelled from the spec: the values written by a min/max request given in percent, whose
code is not in `psfreq_output.c`: both percentages are resolved against the hardware bounds,
and `applyMinMax` requires `hardwareMinKHz ≤ minKHz ≤ maxKHz ≤ hardwareMaxKHz`, else fails
with `InvalidBounds` before any write.  The per-core write sequence is not modelled. -/
def requestMinMax (minPercent maxPercent hardwareMinKHz hardwareMaxKHz : Int) :
    Except ModelError MinMaxWrite :=
  match resolvePercent minPercent hardwareMinKHz hardwareMaxKHz with
  | Except.error err => Except.error err
  | Except.ok minKHz =>
    match resolvePercent maxPercent hardwareMinKHz hardwareMaxKHz with
    | Except.error err => Except.error err
    | Except.ok maxKHz =>
      if hardwareMinKHz ≤ minKHz ∧ minKHz ≤ maxKHz ∧ maxKHz ≤ hardwareMaxKHz then
        Except.ok { scaling_min_freq := minKHz, scaling_max_freq := maxKHz }
      else Except.error ModelError.InvalidBounds

/-- Integer form of rounding the quotient `a / b` to the nearest integer, for `0 < b`. -/
def round_div (a b : Int) : Int := (2 * a + b) / (2 * b)

/-! ## Lemmas -/

theorem round_div_eq_round (a b : Int) (hb : 0 < b) :
    round ((a : ℚ) / (b : ℚ)) = round_div a b := by
  have hb2 : (0 : Int) ≤ 2 * b := by omega
  have hq : ((b : ℚ)) ≠ 0 := by exact_mod_cast hb.ne.symm
  have hcast : (((2 * b).toNat : ℕ) : ℤ) = 2 * b := Int.toNat_of_nonneg hb2
  have h1 : (a : ℚ) / (b : ℚ) + 1 / 2
      = ((2 * a + b : ℤ) : ℚ) / (((2 * b).toNat : ℕ) : ℚ) := by
    have : ((((2 * b).toNat : ℕ) : ℤ) : ℚ) = ((2 * b : ℤ) : ℚ) := by rw [hcast]
    rw [← Int.cast_natCast, this]
    push_cast
    field_simp
    ring
  rw [round_eq, h1, Rat.floor_intCast_div_natCast, hcast, round_div]

theorem computePercent_eq (k lo hi : Int) (h : lo < hi) :
    computePercent k lo hi
      = Except.ok (clampPercent (round_div (100 * (k - lo)) (hi - lo))) := by
  have hd : 0 < hi - lo := by omega
  have := round_div_eq_round (100 * (k - lo)) (hi - lo) hd
  push_cast at this
  simp [computePercent, not_le.mpr h, this]

theorem resolvePercent_eq (p lo hi : Int) (h0 : 0 ≤ p) (h1 : p ≤ 100) :
    resolvePercent p lo hi = Except.ok (lo + round_div (p * (hi - lo)) 100) := by
  have := round_div_eq_round (p * (hi - lo)) 100 (by norm_num)
  push_cast at this
  have hc : ¬ (p < 0 ∨ 100 < p) := by omega
  have he : (p : ℚ) / 100 * ((hi : ℚ) - (lo : ℚ)) = (p : ℚ) * ((hi : ℚ) - (lo : ℚ)) / 100 := by
    ring
  simp [resolvePercent, hc, he, this]

theorem real_loop_ok (e : Env) (frequencies : List String) :
    ∀ (k fuel i : Nat) (tr : List Event), k ≤ fuel → i + k ≤ frequencies.length →
      psfreq_output_real_loop e frequencies ((i + k : Nat) : Int) fuel (i : Int) tr
        = Except.ok (tr ++ real_events e frequencies i k) := by
  intro k
  induction k with
  | zero =>
    intro fuel i tr _ _
    rw [psfreq_output_real_loop.eq_def]
    simp [real_events]
  | succ k ih =>
    intro fuel i tr hf hlen
    obtain ⟨fuel, rfl⟩ : ∃ f, fuel = f + 1 := ⟨fuel - 1, by omega⟩
    have hi : i < frequencies.length := by omega
    have hlt : (i : Int) < ((i + (k + 1) : Nat) : Int) := by omega
    rw [psfreq_output_real_loop]
    simp only [hlt, if_true, Int.toNat_ofNat]
    rw [List.get?_eq_get hi]
    have hnum : ((i + (k + 1) : Nat) : Int) = (((i + 1) + k : Nat) : Int) := by omega
    have hnext : (i : Int) + 1 = ((i + 1 : Nat) : Int) := by omega
    simp only [hnum, hnext]
    rw [ih fuel (i + 1) _ (by omega) (by omega)]
    simp [real_events, List.getElem?_eq_getElem hi]

theorem real_loop_nonpos (e : Env) (frequencies : List String) (num : Int) (fuel : Nat)
    (tr : List Event) (h : num ≤ 0) :
    psfreq_output_real_loop e frequencies num fuel 0 tr = Except.ok tr := by
  rw [psfreq_output_real_loop.eq_def]
  simp [not_lt.mpr h]

theorem real_loop_fuel (e : Env) (frequencies : List String) (num : Int) :
    ∀ (fuel : Nat) (i : Int) (tr : List Event), (num - i).toNat ≤ fuel →
      psfreq_output_real_loop e frequencies num fuel i tr ≠ Except.error Fault.out_of_fuel := by
  intro fuel
  induction fuel with
  | zero =>
    intro i tr h
    have hi : ¬ i < num := by omega
    rw [psfreq_output_real_loop.eq_def]
    simp [hi]
  | succ fuel ih =>
    intro i tr h
    rw [psfreq_output_real_loop.eq_def]
    by_cases hi : i < num
    · simp only [hi, if_true]
      cases hget : frequencies.get? i.toNat with
      | none => simp
      | some f => exact ih (i + 1) _ (by omega)
    · simp [hi]

/-- The loop budget `num.toNat` that `psfreq_output_real` passes is never exhausted. -/
theorem psfreq_output_real_fuel (e : Env) (cpu : Option psfreq_cpu_type) :
    psfreq_output_real e cpu ≠ Except.error Fault.out_of_fuel := by
  cases cpu with
  | none => simp [psfreq_output_real]
  | some c =>
    have h := real_loop_fuel e (e.psfreq_cpu_get_real_freqs c) c.cpu_num c.cpu_num.toNat 0 []
      (by simp)
    simp only [psfreq_output_real]
    split
    · next f hf =>
      intro hcon
      rw [hf] at h
      simp only [Except.error.injEq] at hcon
      exact h (by rw [hcon])
    · simp

theorem psfreq_output_real_ok (e : Env) (c : psfreq_cpu_type)
    (h : c.cpu_num ≤ ((e.psfreq_cpu_get_real_freqs c).length : Int)) :
    psfreq_output_real e (some c)
      = Except.ok (real_events e (e.psfreq_cpu_get_real_freqs c) 0 c.cpu_num.toNat
          ++ [Event.free_array]) := by
  rcases le_or_lt c.cpu_num 0 with hn | hn
  · have h0 : c.cpu_num.toNat = 0 := by omega
    simp [psfreq_output_real, real_loop_nonpos e _ _ _ _ hn, h0, real_events]
  · have hnum : c.cpu_num = ((0 + c.cpu_num.toNat : Nat) : Int) := by omega
    have := real_loop_ok e (e.psfreq_cpu_get_real_freqs c) c.cpu_num.toNat c.cpu_num.toNat 0 []
      le_rfl (by omega)
    rw [← hnum] at this
    simp only [Nat.cast_zero, List.nil_append] at this
    simp [psfreq_output_real, this]

theorem log_lines_real_events (e : Env) (frequencies : List String) :
    ∀ (k i : Nat), log_lines (real_events e frequencies i k)
      = (List.range k).map fun j => real_line e ((i + j : Nat) : Int) (frequencies.getD (i + j) "") := by
  intro k
  induction k with
  | zero => intro i; simp [real_events, log_lines]
  | succ k ih =>
    intro i
    have := ih (i + 1)
    simp only [log_lines] at this ⊢
    simp [real_events, real_line, List.range_succ_eq_map, this, List.filter_cons, Function.comp_def,
      Nat.add_assoc, Nat.add_comm 1]

theorem real_events_eq_enumFrom (e : Env) (frequencies : List String) :
    ∀ (suf : List String) (i : Nat), frequencies.drop i = suf →
      real_events e frequencies i suf.length
        = ((suf.enumFrom i).map fun p =>
            [real_line e (p.1 : Int) p.2, Event.free_elem p.1]).flatten := by
  intro suf
  induction suf with
  | nil => intro i _; simp [real_events]
  | cons x xs ih =>
    intro i h
    have hx : frequencies[i]? = some x := by
      have := List.getElem?_drop (L := frequencies) (i := i) (j := 0)
      rw [h] at this
      simpa using this.symm
    have hxs : frequencies.drop (i + 1) = xs := by
      have := List.drop_drop 1 i frequencies
      rw [h] at this
      simpa [Nat.add_comm] using this.symm
    simp [real_events, hx, ih (i + 1) hxs, List.enumFrom]

theorem get_cpu_current_eq (e : Env) (c : psfreq_cpu_type) (o : psfreq_option_type)
    (h1 : o.cpu_get_type = e.CPU_GET_TYPE_CURRENT) :
    psfreq_output_get_cpu e (some c) (some o)
      = Except.ok (to_unsigned_char e.OUTPUT_SUCCESS,
          [banner e] ++ psfreq_output_current e c) := by
  simp only [psfreq_output_get_cpu, h1, if_true]

theorem get_cpu_real_eq (e : Env) (c : psfreq_cpu_type) (o : psfreq_option_type)
    (h1 : o.cpu_get_type ≠ e.CPU_GET_TYPE_CURRENT) (h2 : o.cpu_get_type = e.CPU_GET_TYPE_REAL)
    (h : c.cpu_num ≤ ((e.psfreq_cpu_get_real_freqs c).length : Int)) :
    psfreq_output_get_cpu e (some c) (some o)
      = Except.ok (to_unsigned_char e.OUTPUT_SUCCESS,
          [banner e] ++ (real_events e (e.psfreq_cpu_get_real_freqs c) 0 c.cpu_num.toNat
            ++ [Event.free_array])) := by
  have hr := psfreq_output_real_ok e c h
  have h1b : e.CPU_GET_TYPE_REAL ≠ e.CPU_GET_TYPE_CURRENT := h2 ▸ h1
  simp only [psfreq_output_get_cpu, h2, if_neg h1b, if_true, hr]

theorem get_cpu_other_eq (e : Env) (c : psfreq_cpu_type) (o : psfreq_option_type)
    (h1 : o.cpu_get_type ≠ e.CPU_GET_TYPE_CURRENT) (h2 : o.cpu_get_type ≠ e.CPU_GET_TYPE_REAL) :
    psfreq_output_get_cpu e (some c) (some o)
      = Except.ok (to_unsigned_char e.OUTPUT_FAILURE, [banner e]) := by
  simp only [psfreq_output_get_cpu, if_neg h1, if_neg h2]

/-! ## `psfreq_output_get_cpu`: return value -/

/-- C1: provided the two result macros are distinct `unsigned char` values and the array
of real frequencies has at least `cpu_num` entries, `psfreq_output_get_cpu` returns, and it
returns `OUTPUT_SUCCESS` if and only if `cpu` is defined, `options` is defined and
`options->cpu_get_type` is `CPU_GET_TYPE_CURRENT` or `CPU_GET_TYPE_REAL`; for every other
input it returns `OUTPUT_FAILURE`. -/
theorem psfreq_output_get_cpu_success_iff (e : Env) (cpu : Option psfreq_cpu_type)
    (options : Option psfreq_option_type)
    (hne : to_unsigned_char e.OUTPUT_SUCCESS ≠ to_unsigned_char e.OUTPUT_FAILURE)
    (hsafe : ∀ c, cpu = some c →
      c.cpu_num ≤ ((e.psfreq_cpu_get_real_freqs c).length : Int)) :
    ∃ r tr, psfreq_output_get_cpu e cpu options = Except.ok (r, tr) ∧
      (r = to_unsigned_char e.OUTPUT_SUCCESS ↔
        (cpu ≠ none ∧ ∃ o, options = some o ∧
          (o.cpu_get_type = e.CPU_GET_TYPE_CURRENT ∨ o.cpu_get_type = e.CPU_GET_TYPE_REAL))) ∧
      (¬ (cpu ≠ none ∧ ∃ o, options = some o ∧
          (o.cpu_get_type = e.CPU_GET_TYPE_CURRENT ∨ o.cpu_get_type = e.CPU_GET_TYPE_REAL)) →
        r = to_unsigned_char e.OUTPUT_FAILURE) := by
  cases cpu with
  | none =>
    exact ⟨_, _, rfl, by simp [Ne.symm hne], fun _ => rfl⟩
  | some c =>
    cases options with
    | none => exact ⟨_, _, rfl, by simp [Ne.symm hne], fun _ => rfl⟩
    | some o =>
      by_cases h1 : o.cpu_get_type = e.CPU_GET_TYPE_CURRENT
      · refine ⟨_, _, get_cpu_current_eq e c o h1, ?_, ?_⟩
        · simp [h1]
        · simp [h1]
      · by_cases h2 : o.cpu_get_type = e.CPU_GET_TYPE_REAL
        · refine ⟨_, _, get_cpu_real_eq e c o h1 h2 (hsafe c rfl), ?_, ?_⟩
          · simp [h2]
          · simp [h2]
        · refine ⟨_, _, get_cpu_other_eq e c o h1 h2, ?_, ?_⟩
          · simp [h1, h2, Ne.symm hne]
          · simp

/-- Witness of C1 on a two-core CPU queried for its real frequencies. -/
theorem psfreq_output_get_cpu_success_iff_witness :
    to_unsigned_char env0.OUTPUT_SUCCESS ≠ to_unsigned_char env0.OUTPUT_FAILURE ∧
    ∃ r tr, psfreq_output_get_cpu env0 (some cpu0) (some { cpu_get_type := 2 })
        = Except.ok (r, tr) ∧
      (r = to_unsigned_char env0.OUTPUT_SUCCESS ↔
        ((some cpu0 : Option psfreq_cpu_type) ≠ none ∧
          ∃ o, (some { cpu_get_type := 2 } : Option psfreq_option_type) = some o ∧
          (o.cpu_get_type = env0.CPU_GET_TYPE_CURRENT
            ∨ o.cpu_get_type = env0.CPU_GET_TYPE_REAL))) ∧
      (¬ ((some cpu0 : Option psfreq_cpu_type) ≠ none ∧
          ∃ o, (some { cpu_get_type := 2 } : Option psfreq_option_type) = some o ∧
          (o.cpu_get_type = env0.CPU_GET_TYPE_CURRENT
            ∨ o.cpu_get_type = env0.CPU_GET_TYPE_REAL)) →
        r = to_unsigned_char env0.OUTPUT_FAILURE) :=
  ⟨by decide,
   psfreq_output_get_cpu_success_iff env0 (some cpu0) (some { cpu_get_type := 2 })
     (by decide) (fun c hc => by cases hc; decide)⟩

/-! ## `psfreq_output_get_cpu`: the current configuration -/

/-- C2: for every defined cpu and defined options with
`cpu_get_type == CPU_GET_TYPE_CURRENT`, `psfreq_output_get_cpu` succeeds and emits the
version banner followed by exactly five lines, in this order: CPU_DRIVER with
`scaling_driver`, CPU_GOVERNOR with `scaling_governor`, TURBO with `pst_turbo`, CPU_MIN with
the percentage `psfreq_cpu_get_scaling_min(cpu)` and the kHz value `scaling_min_freq`,
CPU_MAX with the percentage `psfreq_cpu_get_scaling_max(cpu)` and the kHz value
`scaling_max_freq`. -/
theorem psfreq_output_get_cpu_current_lines (e : Env) (c : psfreq_cpu_type)
    (o : psfreq_option_type) (h : o.cpu_get_type = e.CPU_GET_TYPE_CURRENT) :
    psfreq_output_get_cpu e (some c) (some o)
      = Except.ok (to_unsigned_char e.OUTPUT_SUCCESS,
          [banner e,
           Event.log "    %spstate::%s%s%s-> %s%s%s"
             [Arg.str e.psfreq_color_green, Arg.str e.psfreq_color_blue,
              Arg.str "CPU_DRIVER   ", Arg.str e.psfreq_color_reset,
              Arg.str e.psfreq_color_cyan, Arg.str c.scaling_driver,
              Arg.str e.psfreq_color_reset],
           Event.log "    %spstate::%s%s%s-> %s%s%s"
             [Arg.str e.psfreq_color_green, Arg.str e.psfreq_color_blue,
              Arg.str "CPU_GOVERNOR ", Arg.str e.psfreq_color_reset,
              Arg.str e.psfreq_color_cyan, Arg.str c.scaling_governor,
              Arg.str e.psfreq_color_reset],
           Event.log "    %spstate::%s%s%s-> %s%d [%s]%s"
             [Arg.str e.psfreq_color_green, Arg.str e.psfreq_color_blue,
              Arg.str "TURBO        ", Arg.str e.psfreq_color_reset,
              Arg.str e.psfreq_color_cyan, Arg.int c.pst_turbo,
              Arg.str (turbo_label c.pst_turbo), Arg.str e.psfreq_color_reset],
           Event.log "    %spstate::%s%s%s-> %s%d%% [%uKHz]%s"
             [Arg.str e.psfreq_color_green, Arg.str e.psfreq_color_blue,
              Arg.str "CPU_MIN      ", Arg.str e.psfreq_color_reset,
              Arg.str e.psfreq_color_cyan, Arg.uint (e.psfreq_cpu_get_scaling_min c),
              Arg.int c.scaling_min_freq, Arg.str e.psfreq_color_reset],
           Event.log "    %spstate::%s%s%s-> %s%d%% [%uKHz]%s"
             [Arg.str e.psfreq_color_green, Arg.str e.psfreq_color_blue,
              Arg.str "CPU_MAX      ", Arg.str e.psfreq_color_reset,
              Arg.str e.psfreq_color_cyan, Arg.uint (e.psfreq_cpu_get_scaling_max c),
              Arg.int c.scaling_max_freq, Arg.str e.psfreq_color_reset]]) := by
  rw [get_cpu_current_eq e c o h]
  rfl

/-- Witness of C2 on a two-core CPU queried for its current configuration. -/
theorem psfreq_output_get_cpu_current_lines_witness :
    psfreq_output_get_cpu env0 (some cpu0) (some { cpu_get_type := 1 })
      = Except.ok (1,
          [Event.log "%spstate-frequency %s%s" [Arg.str "", Arg.str "3.4.0", Arg.str ""],
           Event.log "    %spstate::%s%s%s-> %s%s%s"
             [Arg.str "", Arg.str "", Arg.str "CPU_DRIVER   ", Arg.str "", Arg.str "",
              Arg.str "intel_pstate", Arg.str ""],
           Event.log "    %spstate::%s%s%s-> %s%s%s"
             [Arg.str "", Arg.str "", Arg.str "CPU_GOVERNOR ", Arg.str "", Arg.str "",
              Arg.str "powersave", Arg.str ""],
           Event.log "    %spstate::%s%s%s-> %s%d [%s]%s"
             [Arg.str "", Arg.str "", Arg.str "TURBO        ", Arg.str "", Arg.str "",
              Arg.int 0, Arg.str "ON", Arg.str ""],
           Event.log "    %spstate::%s%s%s-> %s%d%% [%uKHz]%s"
             [Arg.str "", Arg.str "", Arg.str "CPU_MIN      ", Arg.str "", Arg.str "",
              Arg.uint 22, Arg.int 800000, Arg.str ""],
           Event.log "    %spstate::%s%s%s-> %s%d%% [%uKHz]%s"
             [Arg.str "", Arg.str "", Arg.str "CPU_MAX      ", Arg.str "", Arg.str "",
              Arg.uint 100, Arg.int 3600000, Arg.str ""]]) :=
  psfreq_output_get_cpu_current_lines env0 cpu0 { cpu_get_type := 1 } (by decide)

/-! ## `psfreq_output_current_turbo` -/

/-- C4 (as stated, refuted): the raw turbo flag 2 is non-zero, yet
`psfreq_output_current_turbo` shows the label "ON" for it. -/
theorem psfreq_output_current_turbo_two_shows_on :
    turbo_shown (psfreq_output_current_turbo env0 "TURBO        " 2) = some "ON" ∧
    ¬ (turbo_shown (psfreq_output_current_turbo env0 "TURBO        " 2) = some "OFF"
        ↔ (2 : Int) ≠ 0) := by
  decide

/-- C4 (amended): for every raw turbo flag value `t` passed to
`psfreq_output_current_turbo`, the label shown is "OFF" if and only if `t` is 1 and "ON" if
and only if `t` is not 1; so on the two normalized values 0 and 1 the label is "OFF" exactly
for the non-zero one. -/
theorem psfreq_output_current_turbo_label (e : Env) (what : String) (t : Int) :
    (turbo_shown (psfreq_output_current_turbo e what t) = some "OFF" ↔ t = 1) ∧
    (turbo_shown (psfreq_output_current_turbo e what t) = some "ON" ↔ t ≠ 1) ∧
    (t = 0 ∨ t = 1 →
      (turbo_shown (psfreq_output_current_turbo e what t) = some "OFF" ↔ t ≠ 0)) := by
  have hs : turbo_shown (psfreq_output_current_turbo e what t) = some (turbo_label t) := rfl
  rw [hs]
  by_cases h : t = 1
  · subst h
    simp [turbo_label]
  · have h0 : turbo_label t = "ON" := by simp [turbo_label, h]
    rw [h0]
    refine ⟨by simp [h], by simp [h], ?_⟩
    rintro (rfl | rfl)
    · simp
    · exact absurd rfl h

/-- Witness of the amended C4 on the normalized value 1. -/
theorem psfreq_output_current_turbo_label_witness :
    (turbo_shown (psfreq_output_current_turbo env0 "TURBO        " 1) = some "OFF"
      ↔ (1 : Int) = 1) ∧
    (turbo_shown (psfreq_output_current_turbo env0 "TURBO        " 1) = some "ON"
      ↔ (1 : Int) ≠ 1) ∧
    (turbo_shown (psfreq_output_current_turbo env0 "TURBO        " 1) = some "OFF"
      ↔ (1 : Int) ≠ 0) :=
  have h := psfreq_output_current_turbo_label env0 "TURBO        " 1
  ⟨h.1, h.2.1, h.2.2 (Or.inr rfl)⟩

/-! ## `psfreq_output_get_cpu`: failures -/

/-- C8: with an undefined cpu, or a defined cpu and undefined options,
`psfreq_output_get_cpu` returns `OUTPUT_FAILURE` and its only message is one error log (no
banner); with both defined and a `cpu_get_type` that is neither `CPU_GET_TYPE_CURRENT` nor
`CPU_GET_TYPE_REAL` it returns `OUTPUT_FAILURE` and its only message is the version banner;
and, the two result macros being distinct, whenever it returns `OUTPUT_FAILURE` the trace
holds no CPU configuration line and no per-core frequency line. -/
theorem psfreq_output_get_cpu_failure (e : Env) (cpu : Option psfreq_cpu_type)
    (options : Option psfreq_option_type) :
    (cpu = none →
      psfreq_output_get_cpu e cpu options
        = Except.ok (to_unsigned_char e.OUTPUT_FAILURE,
            [Event.log_error "psfreq_output_get_cpu" "cpu is undefined"])) ∧
    (cpu ≠ none → options = none →
      psfreq_output_get_cpu e cpu options
        = Except.ok (to_unsigned_char e.OUTPUT_FAILURE,
            [Event.log_error "psfreq_output_get_cpu" "options is undefined"])) ∧
    (∀ o, cpu ≠ none → options = some o →
      o.cpu_get_type ≠ e.CPU_GET_TYPE_CURRENT → o.cpu_get_type ≠ e.CPU_GET_TYPE_REAL →
      psfreq_output_get_cpu e cpu options
        = Except.ok (to_unsigned_char e.OUTPUT_FAILURE, [banner e])) ∧
    (to_unsigned_char e.OUTPUT_SUCCESS ≠ to_unsigned_char e.OUTPUT_FAILURE →
      ∀ tr, psfreq_output_get_cpu e cpu options
          = Except.ok (to_unsigned_char e.OUTPUT_FAILURE, tr) →
        (∀ ev ∈ tr, ev.is_config_line = false ∧ ev.is_real_line = false) ∧
        (tr = [Event.log_error "psfreq_output_get_cpu" "cpu is undefined"]
          ∨ tr = [Event.log_error "psfreq_output_get_cpu" "options is undefined"]
          ∨ tr = [banner e])) := by
  have hb : (banner e).is_config_line = false ∧ (banner e).is_real_line = false := by
    unfold banner
    cases e.VERSION <;> exact ⟨rfl, rfl⟩
  refine ⟨?_, ?_, ?_, ?_⟩
  · rintro rfl
    rfl
  · intro hc ho
    subst ho
    cases cpu with
    | none => exact absurd rfl hc
    | some c => rfl
  · intro o hc ho h1 h2
    subst ho
    cases cpu with
    | none => exact absurd rfl hc
    | some c => exact get_cpu_other_eq e c o h1 h2
  · intro hne tr htr
    cases cpu with
    | none =>
      have : tr = [Event.log_error "psfreq_output_get_cpu" "cpu is undefined"] := by
        simp only [psfreq_output_get_cpu, Except.ok.injEq, Prod.mk.injEq, true_and] at htr
        exact htr.symm
      subst this
      exact ⟨by simp [Event.is_config_line, Event.is_real_line], Or.inl rfl⟩
    | some c =>
      cases options with
      | none =>
        have : tr = [Event.log_error "psfreq_output_get_cpu" "options is undefined"] := by
          simp only [psfreq_output_get_cpu, Except.ok.injEq, Prod.mk.injEq, true_and] at htr
          exact htr.symm
        subst this
        exact ⟨by simp [Event.is_config_line, Event.is_real_line], Or.inr (Or.inl rfl)⟩
      | some o =>
        by_cases h1 : o.cpu_get_type = e.CPU_GET_TYPE_CURRENT
        · rw [get_cpu_current_eq e c o h1] at htr
          simp only [Except.ok.injEq, Prod.mk.injEq] at htr
          exact absurd htr.1 hne
        · by_cases h2 : o.cpu_get_type = e.CPU_GET_TYPE_REAL
          · have h1b : e.CPU_GET_TYPE_REAL ≠ e.CPU_GET_TYPE_CURRENT := h2 ▸ h1
            simp only [psfreq_output_get_cpu, h2, if_neg h1b, if_true] at htr
            split at htr
            · exact absurd htr (by simp)
            · simp only [Except.ok.injEq, Prod.mk.injEq] at htr
              exact absurd htr.1 hne
          · rw [get_cpu_other_eq e c o h1 h2] at htr
            simp only [Except.ok.injEq, Prod.mk.injEq, true_and] at htr
            subst htr
            exact ⟨by simpa using hb, Or.inr (Or.inr rfl)⟩

/-- Witness of C8 on a defined cpu, defined options and the unrecognised request type 3. -/
theorem psfreq_output_get_cpu_failure_witness :
    psfreq_output_get_cpu env0 (some cpu0) (some { cpu_get_type := 3 })
      = Except.ok (to_unsigned_char env0.OUTPUT_FAILURE, [banner env0]) ∧
    (∀ ev ∈ [banner env0], ev.is_config_line = false ∧ ev.is_real_line = false) ∧
    psfreq_output_get_cpu env0 none (some { cpu_get_type := 3 })
      = Except.ok (to_unsigned_char env0.OUTPUT_FAILURE,
          [Event.log_error "psfreq_output_get_cpu" "cpu is undefined"]) ∧
    psfreq_output_get_cpu env0 (some cpu0) none
      = Except.ok (to_unsigned_char env0.OUTPUT_FAILURE,
          [Event.log_error "psfreq_output_get_cpu" "options is undefined"]) :=
  have h := psfreq_output_get_cpu_failure env0 (some cpu0) (some { cpu_get_type := 3 })
  have h3 := h.2.2.1 { cpu_get_type := 3 } (Option.some_ne_none _) rfl (by decide) (by decide)
  ⟨h3, (h.2.2.2 (by decide) [banner env0] h3).1,
   (psfreq_output_get_cpu_failure env0 none (some { cpu_get_type := 3 })).1 rfl,
   (psfreq_output_get_cpu_failure env0 (some cpu0) none).2.1 (Option.some_ne_none _) rfl⟩

/-! ## `psfreq_output_real` -/

theorem log_lines_real_output (e : Env) (frequencies : List String) (n : Nat) :
    log_lines (real_events e frequencies 0 n ++ [Event.free_array])
      = (List.range n).map fun (j : Nat) => real_line e (j : Int) (frequencies.getD j "") := by
  have h := log_lines_real_events e frequencies n 0
  have hsplit : log_lines (real_events e frequencies 0 n ++ [Event.free_array])
      = log_lines (real_events e frequencies 0 n) := by
    simp [log_lines]
  rw [hsplit, h]
  simp

theorem real_log_lines_spec (e : Env) (c : psfreq_cpu_type)
    (h : ((e.psfreq_cpu_get_real_freqs c).length : Int) = c.cpu_num) :
    ∃ tr, psfreq_output_real e (some c) = Except.ok tr ∧
      ((log_lines tr).length : Int) = c.cpu_num ∧
      ∀ (i : Nat) (hi : i < (e.psfreq_cpu_get_real_freqs c).length),
        (log_lines tr)[i]?
          = some (real_line e (i : Int) ((e.psfreq_cpu_get_real_freqs c).get ⟨i, hi⟩)) := by
  have hn : c.cpu_num.toNat = (e.psfreq_cpu_get_real_freqs c).length := by omega
  refine ⟨_, psfreq_output_real_ok e c (by omega), ?_, ?_⟩
  · rw [log_lines_real_output, hn]
    simp [h]
  · intro i hi
    rw [log_lines_real_output, hn]
    simp [hi, List.getElem?_eq_getElem hi]

theorem real_trace_spec (e : Env) (c : psfreq_cpu_type)
    (h : ((e.psfreq_cpu_get_real_freqs c).length : Int) = c.cpu_num) :
    psfreq_output_real e (some c)
      = Except.ok
          (((e.psfreq_cpu_get_real_freqs c).enum.map fun p =>
              [real_line e (p.1 : Int) p.2, Event.free_elem p.1]).flatten
            ++ [Event.free_array]) := by
  have hn : c.cpu_num.toNat = (e.psfreq_cpu_get_real_freqs c).length := by omega
  rw [psfreq_output_real_ok e c (by omega), hn,
    real_events_eq_enumFrom e (e.psfreq_cpu_get_real_freqs c)
      (e.psfreq_cpu_get_real_freqs c) 0 (by simp)]
  rfl

/-- C3: for every defined cpu whose real-frequency sequence has length `cpu_num`,
`psfreq_output_real` returns and logs exactly `cpu_num` lines, and for every `i` below
`cpu_num` the `i`-th line is the `psfreq_log` call with the per-core format string whose
`%d` argument is the core index `i` and whose frequency argument is the `i`-th element of
the sequence. -/
theorem psfreq_output_real_lines (e : Env) (c : psfreq_cpu_type)
    (h : ((e.psfreq_cpu_get_real_freqs c).length : Int) = c.cpu_num) :
    ∃ tr, psfreq_output_real e (some c) = Except.ok tr ∧
      ((log_lines tr).length : Int) = c.cpu_num ∧
      ∀ (i : Nat) (hi : i < (e.psfreq_cpu_get_real_freqs c).length),
        (log_lines tr)[i]?
          = some (Event.log "    %spstate::%sCPU[%s%d%s]%s   -> %s%sMHz%s"
                  [Arg.str e.psfreq_color_green, Arg.str e.psfreq_color_blue,
                   Arg.str e.psfreq_color_reset, Arg.int (i : Int), Arg.str e.psfreq_color_blue,
                   Arg.str e.psfreq_color_reset, Arg.str e.psfreq_color_cyan,
                   Arg.str ((e.psfreq_cpu_get_real_freqs c).get ⟨i, hi⟩), Arg.str e.psfreq_color_reset]) :=
  real_log_lines_spec e c h

/-- Witness of C3 on a two-core CPU. -/
theorem psfreq_output_real_lines_witness :
    ((env0.psfreq_cpu_get_real_freqs cpu0).length : Int) = cpu0.cpu_num ∧
    ∃ tr, psfreq_output_real env0 (some cpu0) = Except.ok tr ∧
      ((log_lines tr).length : Int) = cpu0.cpu_num ∧
      ∀ (i : Nat) (hi : i < (env0.psfreq_cpu_get_real_freqs cpu0).length),
        (log_lines tr)[i]?
          = some (Event.log "    %spstate::%sCPU[%s%d%s]%s   -> %s%sMHz%s"
                  [Arg.str env0.psfreq_color_green, Arg.str env0.psfreq_color_blue,
                   Arg.str env0.psfreq_color_reset, Arg.int (i : Int), Arg.str env0.psfreq_color_blue,
                   Arg.str env0.psfreq_color_reset, Arg.str env0.psfreq_color_cyan,
                   Arg.str ((env0.psfreq_cpu_get_real_freqs cpu0).get ⟨i, hi⟩), Arg.str env0.psfreq_color_reset]) :=
  ⟨by decide, psfreq_output_real_lines env0 cpu0 (by decide)⟩

/-- C9: when the real-frequency sequence has length `cpu_num`, `psfreq_output_real`
returns without an out-of-bounds read, and its trace is, for each element of the sequence in
ascending index order, one `psfreq_log` call with the per-core format string printing the
index and that element, followed by one `free` of that element, and then the `free` of the
array; when `cpu_num <= 0` the whole trace is the `free` of the array, so no frequency line
is printed. -/
theorem psfreq_output_real_accesses (e : Env) (c : psfreq_cpu_type) :
    (((e.psfreq_cpu_get_real_freqs c).length : Int) = c.cpu_num →
      psfreq_output_real e (some c)
        = Except.ok
            (((e.psfreq_cpu_get_real_freqs c).enum.map fun p =>
                [Event.log "    %spstate::%sCPU[%s%d%s]%s   -> %s%sMHz%s"
                  [Arg.str e.psfreq_color_green, Arg.str e.psfreq_color_blue,
                   Arg.str e.psfreq_color_reset, Arg.int (p.1 : Int), Arg.str e.psfreq_color_blue,
                   Arg.str e.psfreq_color_reset, Arg.str e.psfreq_color_cyan,
                   Arg.str p.2, Arg.str e.psfreq_color_reset],
                 Event.free_elem p.1]).flatten
              ++ [Event.free_array])) ∧
    (c.cpu_num ≤ 0 → psfreq_output_real e (some c) = Except.ok [Event.free_array]) := by
  constructor
  · intro h
    exact real_trace_spec e c h
  · intro h
    have h0 : c.cpu_num.toNat = 0 := by omega
    rw [psfreq_output_real_ok e c (by omega), h0]
    rfl

/-- Witness of C9: a two-core CPU with two frequencies, and a CPU reporting -3 cores. -/
theorem psfreq_output_real_accesses_witness :
    psfreq_output_real env0 (some cpu0)
      = Except.ok
          [Event.log "    %spstate::%sCPU[%s%d%s]%s   -> %s%sMHz%s"
            [Arg.str "", Arg.str "", Arg.str "", Arg.int 0, Arg.str "", Arg.str "",
             Arg.str "", Arg.str "800", Arg.str ""],
           Event.free_elem 0,
           Event.log "    %spstate::%sCPU[%s%d%s]%s   -> %s%sMHz%s"
            [Arg.str "", Arg.str "", Arg.str "", Arg.int 1, Arg.str "", Arg.str "",
             Arg.str "", Arg.str "801", Arg.str ""],
           Event.free_elem 1, Event.free_array] ∧
    psfreq_output_real env0 (some { cpu0 with cpu_num := -3 }) = Except.ok [Event.free_array] :=
  ⟨(psfreq_output_real_accesses env0 cpu0).1 (by decide),
   (psfreq_output_real_accesses env0 { cpu0 with cpu_num := -3 }).2 (by decide)⟩

/-! ## The percent/kHz conversions -/

theorem clampPercent_bounds (x : Int) : 0 ≤ clampPercent x ∧ clampPercent x ≤ 100 := by
  unfold clampPercent
  omega

theorem clampPercent_near (x p : Int) (h0 : 0 ≤ p) (h1 : p ≤ 100)
    (hlo : p - 1 ≤ x) (hhi : x ≤ p + 1) : |clampPercent x - p| ≤ 1 := by
  unfold clampPercent
  rw [abs_le]
  omega

theorem round_div_roundtrip (p d : Int) (hd : 34 ≤ d) :
    p - 1 ≤ round_div (100 * round_div (p * d) 100) d
      ∧ round_div (100 * round_div (p * d) 100) d ≤ p + 1 := by
  have hdpos : 0 < 2 * d := by omega
  set r := round_div (p * d) 100 with hr
  set q := round_div (100 * r) d with hq
  have hr1 : 200 * r ≤ 2 * (p * d) + 100 := by
    have := Int.ediv_mul_le (2 * (p * d) + 100) (b := 2 * 100) (by norm_num)
    simp only [round_div] at hr
    omega
  have hr2 : 2 * (p * d) + 100 < 200 * r + 200 := by
    have := Int.lt_ediv_add_one_mul_self (2 * (p * d) + 100) (b := 2 * 100) (by norm_num)
    simp only [round_div] at hr
    omega
  have hq1 : q * (2 * d) ≤ 2 * (100 * r) + d := by
    have := Int.ediv_mul_le (2 * (100 * r) + d) (b := 2 * d) (by omega)
    simpa [round_div, hq] using this
  have hq2 : 2 * (100 * r) + d < (q + 1) * (2 * d) := by
    have := Int.lt_ediv_add_one_mul_self (2 * (100 * r) + d) (b := 2 * d) hdpos
    simpa [round_div, hq] using this
  constructor
  · by_contra hcon
    have hle : q + 1 ≤ p - 1 := by omega
    have := mul_le_mul_of_nonneg_right hle hdpos.le
    nlinarith
  · by_contra hcon
    have hle : p + 2 ≤ q := by omega
    have := mul_le_mul_of_nonneg_right hle hdpos.le
    nlinarith

/-- The width 34 in the amended round-trip law is sharp: at width 33, 50 percent comes back
as 52 percent. -/
theorem roundtrip_width_33 :
    resolvePercent 50 1000 1033 = Except.ok 1017 ∧
    computePercent 1017 1000 1033 = Except.ok 52 := by
  constructor
  · rw [resolvePercent_eq 50 1000 1033 (by decide) (by decide)]
    decide
  · rw [computePercent_eq 1017 1000 1033 (by decide)]
    decide

/-- C5 (as stated, refuted): with the bounds 800000 < 800001 the percentage 30 resolves
to 800000 kHz, which converts back to 0 percent, 30 away from the request. -/
theorem roundtrip_narrow_range_fails :
    resolvePercent 30 800000 800001 = Except.ok 800000 ∧
    computePercent 800000 800000 800001 = Except.ok 0 ∧
    ¬ (|(0 : Int) - 30| ≤ 1) := by
  refine ⟨?_, ?_, by decide⟩
  · rw [resolvePercent_eq 30 800000 800001 (by decide) (by decide)]
    decide
  · rw [computePercent_eq 800000 800000 800001 (by decide)]
    decide

/-- C5 (amended): for every integer percent in [0,100] and every pair of hardware bounds
with `hi - lo ≥ 34`, `resolvePercent` and then `computePercent` both succeed and the
percentage obtained differs from `percent` by at most 1. -/
theorem roundtrip_within_one (percent lo hi : Int) (h0 : 0 ≤ percent) (h1 : percent ≤ 100)
    (hd : 34 ≤ hi - lo) :
    ∃ k q, resolvePercent percent lo hi = Except.ok k ∧
      computePercent k lo hi = Except.ok q ∧ |q - percent| ≤ 1 := by
  refine ⟨_, _, resolvePercent_eq percent lo hi h0 h1,
    computePercent_eq _ lo hi (by omega), ?_⟩
  have hk : lo + round_div (percent * (hi - lo)) 100 - lo
      = round_div (percent * (hi - lo)) 100 := by ring
  rw [hk]
  obtain ⟨ha, hb⟩ := round_div_roundtrip percent (hi - lo) hd
  exact clampPercent_near _ percent h0 h1 ha hb

/-- Witness of the amended C5 on the bounds 800000..3600000 kHz and 37 percent. -/
theorem roundtrip_within_one_witness :
    ∃ k q, resolvePercent 37 800000 3600000 = Except.ok k ∧
      computePercent k 800000 3600000 = Except.ok q ∧ |q - 37| ≤ 1 :=
  roundtrip_within_one 37 800000 3600000 (by decide) (by decide) (by decide)

/-- C6: with hardware bounds [800000, 3600000] kHz, 20 percent resolves to 1360000 kHz and
80 percent to 3040000 kHz, and the request minPercent=20, maxPercent=80 passes validation
and writes scaling_min_freq=1360000 and scaling_max_freq=3040000. -/
theorem resolvePercent_example :
    resolvePercent 20 800000 3600000 = Except.ok 1360000 ∧
    resolvePercent 80 800000 3600000 = Except.ok 3040000 ∧
    requestMinMax 20 80 800000 3600000
      = Except.ok { scaling_min_freq := 1360000, scaling_max_freq := 3040000 } := by
  have h20 : resolvePercent 20 800000 3600000 = Except.ok 1360000 := by
    rw [resolvePercent_eq 20 800000 3600000 (by decide) (by decide)]
    decide
  have h80 : resolvePercent 80 800000 3600000 = Except.ok 3040000 := by
    rw [resolvePercent_eq 80 800000 3600000 (by decide) (by decide)]
    decide
  refine ⟨h20, h80, ?_⟩
  simp only [requestMinMax, h20, h80]
  decide

/-- C7: `computePercent` fails with `InvalidRange` if and only if
`hardwareMaxKHz ≤ hardwareMinKHz`; for every other input, whatever `currentKHz` is, it
succeeds with an integer in [0,100]. -/
theorem computePercent_total (currentKHz hardwareMinKHz hardwareMaxKHz : Int) :
    (computePercent currentKHz hardwareMinKHz hardwareMaxKHz
        = Except.error ModelError.InvalidRange ↔ hardwareMaxKHz ≤ hardwareMinKHz) ∧
    (¬ hardwareMaxKHz ≤ hardwareMinKHz →
      ∃ q, computePercent currentKHz hardwareMinKHz hardwareMaxKHz = Except.ok q ∧
        0 ≤ q ∧ q ≤ 100) := by
  by_cases h : hardwareMaxKHz ≤ hardwareMinKHz
  · simp [computePercent, h]
  · have heq := computePercent_eq currentKHz hardwareMinKHz hardwareMaxKHz (by omega)
    exact ⟨by simp [heq, h], fun _ => ⟨_, heq, clampPercent_bounds _⟩⟩

/-- Witness of C7: a current frequency far above the hardware maximum gives 100 percent,
and equal bounds give `InvalidRange`. -/
theorem computePercent_total_witness :
    (∃ q, computePercent 9000000 800000 3600000 = Except.ok q ∧ 0 ≤ q ∧ q ≤ 100) ∧
    computePercent 9000000 800000 800000 = Except.error ModelError.InvalidRange :=
  ⟨(computePercent_total 9000000 800000 3600000).2 (by decide),
   (computePercent_total 9000000 800000 800000).1.2 (by decide)⟩

end Psfreq
